import Mathlib

/-!
# Verification of `stock-analysis-agent` against its specification

Shallow embedding of the two scripts `src/app.py` and `src/main.py` of the
repository `dandev947366/stock-analysis-agent`, together with theorems
settling the frozen claims about them.

Modelling conventions:

* pandas float series are modelled in exact arithmetic: prices are `ℚ`; the
  Bollinger rolling standard deviation (the only irrational quantity) lives
  in `ℝ`;
* the last-row value (`.iloc[-1]`) of a rolling statistic is modelled
  directly, with a pandas `NaN` rendered as `none`;
* a Python exception is modelled as `Except.error` carrying the message;
* the LLM endpoint, the market-data fetch, and the `str(...)` renderings of
  Python dictionaries are parameters of the embedded workflow functions;
* console output and LLM-chain invocations are recorded in an explicit
  event trace, in program order.
-/

namespace StockAgent

/-! ## Price data

The two columns of the `yfinance` history DataFrame that
`calculate_technical_indicators` (src/main.py, lines 78-121) reads. -/

structure PriceData where
  closes : List ℚ
  volumes : List ℚ

/-! ## Rolling statistics at the last row -/

/-- The trailing `w` elements of a series: the window a pandas
`rolling(window=w)` statistic sees at the last row. -/
def lastWindow (w : ℕ) (xs : List ℚ) : List ℚ :=
  xs.drop (xs.length - w)

/-- Last row of `xs.rolling(window=w).mean()`: `NaN` (= `none`) when the
series has fewer than `w` rows, otherwise the mean of the trailing `w`
rows (pandas default `min_periods = w`). -/
def rollingMeanLast (w : ℕ) (xs : List ℚ) : Option ℚ :=
  if xs.length < w then none
  else some ((lastWindow w xs).sum / w)

/-- `closes.diff()` without its leading `NaN`: the one-day changes
`x_(i+1) - x_i`, a list one shorter than `closes`. -/
def deltaList (xs : List ℚ) : List ℚ :=
  List.zipWith (fun a b => a - b) xs.tail xs

/-- `delta.where(delta > 0, 0)` applied to the real (non-`NaN`) entries of
`delta` (src/main.py, line 96). -/
def gainList (xs : List ℚ) : List ℚ :=
  (deltaList xs).map (fun d => if 0 < d then d else 0)

/-- `-delta.where(delta < 0, 0)` applied to the real entries of `delta`
(src/main.py, line 97). -/
def lossList (xs : List ℚ) : List ℚ :=
  (deltaList xs).map (fun d => -(if d < 0 then d else 0))

/-- The full gain series of src/main.py line 96, one entry per row of
`closes`.  `delta.iloc[0]` is `NaN`, and `NaN > 0` is `False` in pandas, so
`delta.where(delta > 0, 0)` turns the leading `NaN` into `0`. -/
def gainSeries : List ℚ → List ℚ
  | [] => []
  | x :: xs => 0 :: gainList (x :: xs)

/-- The full loss series of src/main.py line 97 (the leading `NaN` of
`delta` likewise becomes `-0 = 0`). -/
def lossSeries : List ℚ → List ℚ
  | [] => []
  | x :: xs => 0 :: lossList (x :: xs)

/-- Last row of the RSI series of src/main.py lines 95-99:
`rs = gain/loss`, `rsi = 100 - 100/(1 + rs)`.

Exactness caveat: rational division is used for `gain/loss`, which agrees
with IEEE division whenever the trailing loss average is nonzero; the
claims about RSI are only invoked under that side condition. -/
def rsiLast (xs : List ℚ) : Option ℚ :=
  match rollingMeanLast 14 (gainSeries xs), rollingMeanLast 14 (lossSeries xs) with
  | some g, some l => some (100 - 100 / (1 + g / l))
  | _, _ => none

/-! ## Exponential moving averages (pandas `ewm(span=n, adjust=False)`) -/

/-- One step of the `adjust=False` exponential moving average:
`ema_t = a*x_t + (1-a)*ema_(t-1)`. -/
def ewmStep (a prev x : ℚ) : ℚ :=
  a * x + (1 - a) * prev

/-- The EMA series continuing after the value `prev`. -/
def ewmFrom (a prev : ℚ) : List ℚ → List ℚ
  | [] => []
  | x :: rest => ewmStep a prev x :: ewmFrom a (ewmStep a prev x) rest

/-- `series.ewm(span=n, adjust=False).mean()`: the smoothing factor is
`a = 2/(n+1)`, the first output equals the first input. -/
def ewmMean (n : ℕ) : List ℚ → List ℚ
  | [] => []
  | x :: rest => x :: ewmFrom (2 / ((n : ℚ) + 1)) x rest

/-- The MACD line `ema_12 - ema_26` (src/main.py, line 104). -/
def macdList (xs : List ℚ) : List ℚ :=
  List.zipWith (fun a b => a - b) (ewmMean 12 xs) (ewmMean 26 xs)

/-- The signal line `macd.ewm(span=9, adjust=False).mean()` (line 105). -/
def signalList (xs : List ℚ) : List ℚ :=
  ewmMean 9 (macdList xs)

/-! ## Bollinger computation of src/main.py lines 107-110 -/

/-- Last row of the square of `closes.rolling(window=20).std()`: the
sample variance (pandas default `ddof=1`) of the trailing 20 rows. -/
def rollingVar20Last (xs : List ℚ) : Option ℚ :=
  if xs.length < 20 then none
  else
    let win := lastWindow 20 xs
    let m := win.sum / 20
    some ((win.map (fun x => (x - m) ^ 2)).sum / 19)

/-- Last row of `closes.rolling(window=20).std()`. -/
noncomputable def rollingStd20Last (xs : List ℚ) : Option ℝ :=
  (rollingVar20Last xs).map (fun v => Real.sqrt (v : ℝ))

/-- Last row of `upper_band = sma_50 + (rolling_std * 2)` (line 109);
`NaN` as soon as either component is `NaN`. -/
noncomputable def upperBandLast (xs : List ℚ) : Option ℝ :=
  match rollingMeanLast 50 xs, rollingStd20Last xs with
  | some m, some s => some ((m : ℝ) + s * 2)
  | _, _ => none

/-- Last row of `lower_band = sma_50 - (rolling_std * 2)` (line 110). -/
noncomputable def lowerBandLast (xs : List ℚ) : Option ℝ :=
  match rollingMeanLast 50 xs, rollingStd20Last xs with
  | some m, some s => some ((m : ℝ) - s * 2)
  | _, _ => none

/-! ## `calculate_technical_indicators` (src/main.py, lines 78-121) -/

/-- The dictionary returned by `calculate_technical_indicators`. -/
structure TechnicalIndicators where
  sma_50 : Option ℚ
  sma_200 : Option ℚ
  rsi : Option ℚ
  macd : Option ℚ
  signal : Option ℚ
  upper_band : Option ℝ
  lower_band : Option ℝ
  volume_avg : Option ℚ

/-- `calculate_technical_indicators(data)` (src/main.py, lines 78-121).

On an empty history frame the very first last-row access
`sma_50.iloc[-1]` (line 113) raises `IndexError`, so the function returns
a value only for a non-empty series. -/
noncomputable def calculate_technical_indicators (data : PriceData) :
    Except String TechnicalIndicators :=
  if data.closes = [] then
    .error "IndexError: single positional indexer is out-of-bounds"
  else
    .ok
      { sma_50 := rollingMeanLast 50 data.closes
        sma_200 := rollingMeanLast 200 data.closes
        rsi := rsiLast data.closes
        macd := (macdList data.closes).getLast?
        signal := (signalList data.closes).getLast?
        upper_band := upperBandLast data.closes
        lower_band := lowerBandLast data.closes
        volume_avg :=
          if data.volumes = [] then none
          else some (data.volumes.sum / data.volumes.length) }

/-! ## `generate_valuation_metrics` (src/main.py, lines 124-163)

Every value read from the `info` dictionary is an optional number
(`info.get(...)` yields `None` when the key is absent). -/

/-- The fields of the `yfinance` `info` dictionary that
`generate_valuation_metrics` reads. -/
structure ValInfo where
  trailingPE : Option ℚ
  forwardPE : Option ℚ
  pegRatio : Option ℚ
  priceToSalesTrailing12Months : Option ℚ
  priceToBook : Option ℚ
  enterpriseToEbitda : Option ℚ
  revenueGrowth : Option ℚ
  earningsGrowth : Option ℚ
  ebitdaGrowth : Option ℚ
  grossMargins : Option ℚ
  operatingMargins : Option ℚ
  profitMargins : Option ℚ
  returnOnEquity : Option ℚ
  returnOnAssets : Option ℚ
  currentRatio : Option ℚ
  quickRatio : Option ℚ
  debtToEquity : Option ℚ
  earningsBeforeInterestTaxes : Option ℚ
  interestExpense : Option ℚ
deriving DecidableEq

/-- The `"valuation"` sub-dictionary. -/
structure ValuationGroup where
  pe_ratio : Option ℚ
  forward_pe : Option ℚ
  peg_ratio : Option ℚ
  price_to_sales : Option ℚ
  price_to_book : Option ℚ
  ev_to_ebitda : Option ℚ
deriving DecidableEq

/-- The `"growth"` sub-dictionary. -/
structure GrowthGroup where
  revenue_growth : Option ℚ
  earnings_growth : Option ℚ
  ebitda_growth : Option ℚ
deriving DecidableEq

/-- The `"profitability"` sub-dictionary. -/
structure ProfitabilityGroup where
  gross_margins : Option ℚ
  operating_margins : Option ℚ
  profit_margins : Option ℚ
  return_on_equity : Option ℚ
  return_on_assets : Option ℚ
deriving DecidableEq

/-- The `"financial_health"` sub-dictionary. -/
structure FinancialHealthGroup where
  current_ratio : Option ℚ
  quick_ratio : Option ℚ
  debt_to_equity : Option ℚ
  interest_coverage : Option ℚ
deriving DecidableEq

/-- The nested dictionary returned by `generate_valuation_metrics`. -/
structure ValMetrics where
  valuation : ValuationGroup
  growth : GrowthGroup
  profitability : ProfitabilityGroup
  financial_health : FinancialHealthGroup
deriving DecidableEq

/-- The `interest_coverage` entry (src/main.py, lines 157-161):

`info.get("earningsBeforeInterestTaxes") / info.get("interestExpense")
 if info.get("interestExpense") else None`.

`if` tests Python truthiness, so a missing *or zero* `interestExpense`
yields `None`; otherwise the division is attempted, and if
`earningsBeforeInterestTaxes` is missing it is `None`, so
`None / number` raises `TypeError`. -/
def interestCoverageEntry (ebit ie : Option ℚ) : Except String (Option ℚ) :=
  match ie with
  | none => .ok none
  | some v =>
    if v = 0 then .ok none
    else
      match ebit with
      | none => .error "TypeError: unsupported operand types for /: NoneType and float"
      | some e => .ok (some (e / v))

/-- `generate_valuation_metrics(info)` (src/main.py, lines 124-163).  The
only entry that can raise is `interest_coverage`; every other entry is a
plain `info.get(...)`. -/
def generate_valuation_metrics (info : ValInfo) : Except String ValMetrics :=
  match interestCoverageEntry info.earningsBeforeInterestTaxes info.interestExpense with
  | .error e => .error e
  | .ok ic =>
    .ok
      { valuation :=
          { pe_ratio := info.trailingPE
            forward_pe := info.forwardPE
            peg_ratio := info.pegRatio
            price_to_sales := info.priceToSalesTrailing12Months
            price_to_book := info.priceToBook
            ev_to_ebitda := info.enterpriseToEbitda }
        growth :=
          { revenue_growth := info.revenueGrowth
            earnings_growth := info.earningsGrowth
            ebitda_growth := info.ebitdaGrowth }
        profitability :=
          { gross_margins := info.grossMargins
            operating_margins := info.operatingMargins
            profit_margins := info.profitMargins
            return_on_equity := info.returnOnEquity
            return_on_assets := info.returnOnAssets }
        financial_health :=
          { current_ratio := info.currentRatio
            quick_ratio := info.quickRatio
            debt_to_equity := info.debtToEquity
            interest_coverage := ic } }

/-! ## `get_basic_stock_info` (src/app.py, lines 22-60) -/

/-- The fields of the `yfinance` `info` dictionary read by
`get_basic_stock_info`. -/
structure Info where
  longName : Option String
  sector : Option String
  industry : Option String
  marketCap : Option ℤ
  currentPrice : Option ℚ
  fiftyTwoWeekHigh : Option ℚ
  fiftyTwoWeekLow : Option ℚ
  averageVolume : Option ℤ
deriving DecidableEq

/-- Python truthiness of an optional integer: `None` and `0` are falsy. -/
def intFalsy : Option ℤ → Bool
  | none => true
  | some n => n == 0

/-- Python truthiness of an optional number: `None` and `0.0` are falsy. -/
def ratFalsy : Option ℚ → Bool
  | none => true
  | some q => q == 0

/-- Python truthiness of an optional string: `None` and `""` are falsy. -/
def strFalsy : Option String → Bool
  | none => true
  | some s => s == ""

/-- Insert a comma after every third digit of a reversed digit list
(the grouping done by Python `f"{n:,}"`). -/
def groupThrees : List Char → List Char
  | c1 :: c2 :: c3 :: c4 :: rest => c1 :: c2 :: c3 :: ',' :: groupThrees (c4 :: rest)
  | l => l

/-- Python `f"{n:,}"` for an integer: thousands separators. -/
def fmtComma (n : ℤ) : String :=
  (if n < 0 then "-" else "") ++
    String.mk (groupThrees (toString n.natAbs).toList.reverse).reverse

/-- Python `f"{v:.2f}"`: fixed two decimal places (rounding to the
nearest hundredth; the claims never depend on tie behaviour). -/
def fmtFixed2 (q : ℚ) : String :=
  let c : ℤ := round (q * 100)
  let n := c.natAbs
  (if c < 0 then "-" else "") ++
    toString (n / 100) ++ "." ++
    (if n % 100 < 10 then "0" else "") ++ toString (n % 100)

/-- The `"Name"` entry: `info.get("longName", "N/A")` — the default is
used only when the key is missing, not when its value is falsy. -/
def nameLine (info : Info) : String :=
  "Name: " ++ info.longName.getD "N/A"

/-- The `"Sector"` entry: `info.get("sector", "N/A")`. -/
def sectorLine (info : Info) : String :=
  "Sector: " ++ info.sector.getD "N/A"

/-- The `"Industry"` entry: `info.get("industry", "N/A")`. -/
def industryLine (info : Info) : String :=
  "Industry: " ++ info.industry.getD "N/A"

/-- The `"Market Cap"` entry:
`f"${info.get("marketCap", "N/A"):,}" if info.get("marketCap") else "N/A"`:
the formatted value when truthy, `"N/A"` when missing or `0`. -/
def marketCapLine (info : Info) : String :=
  "Market Cap: " ++
    (if intFalsy info.marketCap then "N/A"
     else "$" ++ fmtComma (info.marketCap.getD 0))

/-- The `"Current Price"` entry (truthiness-guarded `f"${...:.2f}"`). -/
def currentPriceLine (info : Info) : String :=
  "Current Price: " ++
    (if ratFalsy info.currentPrice then "N/A"
     else "$" ++ fmtFixed2 (info.currentPrice.getD 0))

/-- The `"52 Week High"` entry (truthiness-guarded `f"${...:.2f}"`). -/
def fiftyTwoWeekHighLine (info : Info) : String :=
  "52 Week High: " ++
    (if ratFalsy info.fiftyTwoWeekHigh then "N/A"
     else "$" ++ fmtFixed2 (info.fiftyTwoWeekHigh.getD 0))

/-- The `"52 Week Low"` entry (truthiness-guarded `f"${...:.2f}"`). -/
def fiftyTwoWeekLowLine (info : Info) : String :=
  "52 Week Low: " ++
    (if ratFalsy info.fiftyTwoWeekLow then "N/A"
     else "$" ++ fmtFixed2 (info.fiftyTwoWeekLow.getD 0))

/-- The `"Average Volume"` entry (truthiness-guarded `f"{...:,}"`). -/
def averageVolumeLine (info : Info) : String :=
  "Average Volume: " ++
    (if intFalsy info.averageVolume then "N/A"
     else fmtComma (info.averageVolume.getD 0))

/-- The eight `"k: v"` lines of the `basic_info` dictionary, in insertion
order (src/app.py, lines 28-57). -/
def basicInfoLines (info : Info) : List String :=
  [nameLine info, sectorLine info, industryLine info, marketCapLine info,
   currentPriceLine info, fiftyTwoWeekHighLine info, fiftyTwoWeekLowLine info,
   averageVolumeLine info]

/-- `get_basic_stock_info(ticker)` (src/app.py, lines 22-60), as a
function of the outcome of the `yf.Ticker(ticker).info` fetch.  The
`try` block covers the fetch and the formatting; in this typed model the
formatting is total, so only a failed fetch reaches the handler, which
returns (not raises) the error text. -/
def get_basic_stock_info (fetch : Except String Info) : String :=
  match fetch with
  | .ok info => String.intercalate "\n" (basicInfoLines info)
  | .error e => "Error fetching stock info: " ++ e

/-! ## Prompt templates

The filled prompts, by string concatenation.  The text is transcribed
verbatim from the `PromptTemplate` literals, each `{var}` spliced with the
corresponding argument. -/

/-- `research_prompt` of src/app.py (lines 69-83), filled. -/
def researchPromptFilled (ticker stock_data : String) : String :=
  "\n        Analyze the following stock ticker: " ++ ticker ++
  "\n        \n        Stock Data:\n        " ++ stock_data ++
  "\n        \n        Provide a comprehensive overview including:\n        1. Company description\n        2. Key financial metrics\n        3. Recent performance\n        4. Industry position\n        "

/-- `analysis_prompt` of src/app.py (lines 85-97), filled. -/
def analysisPromptFilled (ticker research_report : String) : String :=
  "\n        Based on this research report for " ++ ticker ++ ":\n        " ++
  research_report ++
  "\n        \n        Perform detailed analysis covering:\n        1. Valuation assessment\n        2. Growth prospects\n        3. Risk factors\n        4. Competitive advantages\n        "

/-- `recommendation_prompt` of src/app.py (lines 99-116), filled. -/
def recommendationPromptFilled (ticker research_report analysis_report : String) : String :=
  "\n        For stock " ++ ticker ++
  ", synthesize this information:\n        \n        RESEARCH SUMMARY:\n        " ++
  research_report ++
  "\n        \n        ANALYSIS FINDINGS:\n        " ++ analysis_report ++
  "\n        \n        Generate an investment recommendation covering:\n        1. Investment thesis\n        2. Price targets\n        3. Risk/reward assessment\n        4. Suggested position size\n        "

/-- `fundamental_prompt` of src/main.py (lines 174-194), filled. -/
def fundamentalPromptFilled (ticker info valuation_metrics : String) : String :=
  "\n        Perform comprehensive fundamental analysis for " ++ ticker ++
  ":\n        \n        Company Information:\n        " ++ info ++
  "\n        \n        Valuation Metrics:\n        " ++ valuation_metrics ++
  "\n        \n        Your analysis must include:\n        1. Business Model Analysis (competitive advantages, moat)\n        2. Financial Health Assessment (liquidity, solvency)\n        3. Growth Prospects (historical and projected)\n        4. Valuation Assessment (relative and absolute)\n        5. Industry Position and Competitive Landscape\n        \n        Format as a professional research report with clear sections.\n        "

/-- `technical_prompt` of src/main.py (lines 196-216), filled. -/
def technicalPromptFilled (ticker technical_indicators price_data : String) : String :=
  "\n        Perform technical analysis for " ++ ticker ++
  ":\n        \n        Technical Indicators:\n        " ++ technical_indicators ++
  "\n        \n        Price Data Summary:\n        " ++ price_data ++
  "\n        \n        Analyze:\n        1. Trend Analysis (short, medium, long-term)\n        2. Key Support/Resistance Levels\n        3. Momentum Indicators Interpretation\n        4. Volume Analysis\n        5. Chart Patterns\n        \n        Provide specific price levels for entry/exit points.\n        "

/-- `recommendation_prompt` of src/main.py (lines 218-238), filled. -/
def mainRecommendationPromptFilled (ticker fundamental_analysis technical_analysis : String) : String :=
  "\n        Generate institutional investment recommendation for " ++ ticker ++
  ":\n        \n        Fundamental Analysis:\n        " ++ fundamental_analysis ++
  "\n        \n        Technical Analysis:\n        " ++ technical_analysis ++
  "\n        \n        Include:\n        1. Investment Thesis (3-5 key points)\n        2. Price Targets (conservative/base/aggressive)\n        3. Risk Assessment (systematic/unsystematic risks)\n        4. Position Sizing Guidance\n        5. Monitoring Criteria\n        \n        Format for a professional investment committee.\n        "

/-! ## Event traces

A run is recorded as a list of events in program order: LLM-chain
invocations (`chain.run`, a synchronous blocking call whose response is
available to everything after it in the list) and console prints. -/

/-- One observable event of a run. -/
inductive Event where
  | llmCall (prompt response : String)
  | consoleOut (line : String)
deriving DecidableEq

/-- The LLM-chain invocations of a trace, in order. -/
def callsOf (tr : List Event) : List (String × String) :=
  tr.filterMap fun e =>
    match e with
    | .llmCall p r => some (p, r)
    | .consoleOut _ => none

/-- The console output of a trace, in order. -/
def outsOf (tr : List Event) : List String :=
  tr.filterMap fun e =>
    match e with
    | .consoleOut s => some s
    | .llmCall _ _ => none

/-! ## `analyze_stock` (src/app.py, lines 136-172) -/

/-- `analyze_stock(ticker)`, as a function of the info-fetch outcome and
of the LLM endpoint `llm` (one response per prompt). -/
def analyze_stock (ticker : String) (fetch : Except String Info)
    (llm : String → String) : List Event :=
  let stock_data := get_basic_stock_info fetch
  let research_result := llm (researchPromptFilled ticker stock_data)
  let analysis_result := llm (analysisPromptFilled ticker research_result)
  let recommendation := llm (recommendationPromptFilled ticker research_result analysis_result)
  [.consoleOut ("\n🔍 Analyzing " ++ ticker ++ "...\n"),
   .consoleOut "📊 Basic Information:",
   .consoleOut stock_data,
   .llmCall (researchPromptFilled ticker stock_data) research_result,
   .consoleOut "\n📝 Research Report:",
   .consoleOut research_result,
   .llmCall (analysisPromptFilled ticker research_result) analysis_result,
   .consoleOut "\n📈 Detailed Analysis:",
   .consoleOut analysis_result,
   .llmCall (recommendationPromptFilled ticker research_result analysis_result) recommendation,
   .consoleOut "\n💡 Investment Recommendation:",
   .consoleOut recommendation]

/-! ## `professional_analysis` (src/main.py, lines 258-321)

The status strings are transcribed byte-for-byte from the source file
(whose decorations are mojibake of the intended emoji, including a
leading private-use character ``). -/

/-- The data gathered by `get_comprehensive_stock_data` as used by
`professional_analysis`: the `str(...)` of the raw info dictionary, the
typed fields read by `generate_valuation_metrics`, the 1-year history
frame, and `str(hist_data.describe())`. -/
structure MainData where
  infoStr : String
  valInfo : ValInfo
  hist : PriceData
  describeStr : String

/-- `print(f"\nüè¶ Initiating ...")` (line 260). -/
def profHeader (ticker : String) : String :=
  "\nüè¶ Initiating Professional Analysis for " ++ ticker ++ "..."

/-- Status print of line 265. -/
def collectMsg : String := "\nüìä Collecting comprehensive data..."

/-- Status print of line 269. -/
def calcMsg : String := "üìà Calculating technical indicators..."

/-- Status print of line 273. -/
def fundMsg : String := "üíº Analyzing fundamentals..."

/-- Status print of line 279. -/
def conductMsg : String := "\nüîç Conducting fundamental analysis..."

/-- Status print of line 288. -/
def performMsg : String := "\nüìä Performing technical analysis..."

/-- Status print of line 298. -/
def formulateMsg : String := "\nüí° Formulating recommendation..."

/-- `"=" * 80` (lines 308, 310, 317). -/
def eqBar : String := String.mk (List.replicate 80 '=')

/-- Report banner of line 309. -/
def reportHeader (ticker : String) : String :=
  "üèõÔ∏è  INSTITUTIONAL RESEARCH REPORT: " ++ ticker

/-- Section header of line 311. -/
def fundHeader : String := "\n‚≠ê FUNDAMENTAL ANALYSIS:"

/-- Section header of line 313. -/
def techHeader : String := "\nüìà TECHNICAL ANALYSIS:"

/-- Section header of line 315. -/
def recHeader : String := "\nüíé INVESTMENT RECOMMENDATION:"

/-- Timing print of line 318, as a function of the elapsed-time text
(wall-clock time is an input of the model). -/
def timingLine (elapsedStr : String) : String :=
  "‚è±Ô∏è  Analysis completed in " ++ elapsedStr ++ " seconds"

/-- The catch-all handler print of line 321. -/
def profFailLine (e : String) : String :=
  "\n‚ùå Professional analysis failed: " ++ e

/-- `professional_analysis(ticker)` (src/main.py, lines 258-321), as a
function of the data-fetch outcome, of the (injected) `str(...)`
renderings of the indicator and metrics dictionaries, of the elapsed-time
text, and of the LLM endpoint.  The body's `try` is modelled exactly: a
failure of the fetch, of the indicator computation (empty history), or of
the valuation metrics (`TypeError`) aborts the run with the single
catch-all print of line 321. -/
noncomputable def professional_analysis (ticker : String)
    (fetch : Except String MainData)
    (renderInd : TechnicalIndicators → String)
    (renderVal : ValMetrics → String)
    (elapsedStr : String) (llm : String → String) : List Event :=
  .consoleOut (profHeader ticker) ::
  .consoleOut collectMsg ::
  match fetch with
  | .error e => [.consoleOut (profFailLine e)]
  | .ok d =>
    .consoleOut calcMsg ::
    match calculate_technical_indicators d.hist with
    | .error e => [.consoleOut (profFailLine e)]
    | .ok ti =>
      .consoleOut fundMsg ::
      match generate_valuation_metrics d.valInfo with
      | .error e => [.consoleOut (profFailLine e)]
      | .ok vm =>
        let p1 := fundamentalPromptFilled ticker d.infoStr (renderVal vm)
        let r1 := llm p1
        let p2 := technicalPromptFilled ticker (renderInd ti) d.describeStr
        let r2 := llm p2
        let p3 := mainRecommendationPromptFilled ticker r1 r2
        let r3 := llm p3
        [.consoleOut conductMsg, .llmCall p1 r1,
         .consoleOut performMsg, .llmCall p2 r2,
         .consoleOut formulateMsg, .llmCall p3 r3,
         .consoleOut ("\n" ++ eqBar), .consoleOut (reportHeader ticker),
         .consoleOut eqBar,
         .consoleOut fundHeader, .consoleOut r1,
         .consoleOut techHeader, .consoleOut r2,
         .consoleOut recHeader, .consoleOut r3,
         .consoleOut ("\n" ++ eqBar), .consoleOut (timingLine elapsedStr)]

/-! ## The CLI loops -/

/-- Python `str.upper()` as applied to a ticker line (per-character
ASCII upcasing). -/
def pyUpper (s : String) : String := String.mk (s.toList.map Char.toUpper)

/-- Python `str.lower()`. -/
def pyLower (s : String) : String := String.mk (s.toList.map Char.toLower)

/-- Python `str.strip()`: remove leading and trailing whitespace. -/
def pyStrip (s : String) : String :=
  String.mk (((s.toList.dropWhile Char.isWhitespace).reverse.dropWhile
    Char.isWhitespace).reverse)

/-- One iteration of the `while True` loop of `main()` in src/app.py
(lines 179-193), as a function of the raw input line and of the outcome
of `analyze_stock` — `.ok` with its trace, or `.error` with the events
printed before the exception together with the exception text.  Returns
the printed events and whether the loop continues to the next prompt. -/
def app_main_step (raw : String)
    (outcome : Except (List Event × String) (List Event)) :
    List Event × Bool :=
  let ticker := pyUpper (pyStrip raw)
  if pyLower ticker = "quit" ∨ pyLower ticker = "exit" then
    ([.consoleOut "Goodbye!"], false)
  else if ticker = "" then
    ([.consoleOut "Please enter a valid ticker symbol"], true)
  else
    match outcome with
    | .ok tr => (tr, true)
    | .error (pre, e) =>
      (pre ++ [.consoleOut ("Error analyzing stock: " ++ e)], true)

/-- One iteration of the `while True` loop of `main()` in src/main.py
(lines 336-354): `professional_analysis` has its own catch-all and never
raises, so a valid ticker always continues the loop. -/
def main_loop_step (raw : String) (analysisEvents : List Event) :
    List Event × Bool :=
  let ticker := pyUpper (pyStrip raw)
  if pyLower ticker = "exit" ∨ pyLower ticker = "quit" then
    ([.consoleOut "\nTerminating analysis session..."], false)
  else if ticker = "" then
    ([.consoleOut "Please enter a valid ticker symbol"], true)
  else (analysisEvents, true)

/-! ## The market-data provider, shared view (for the duplicate-script
claim) -/

/-- What the provider offers to a script for one ticker: the info
dictionary and the historical price frame.  src/app.py reads only the
`info` part (it calls `yf.Ticker(ticker).info` and never
`stock.history`). -/
structure ProviderData where
  info : Info
  hist : PriceData

/-- The full run of src/app.py's workflow on provider data: only
`pd.info` is consumed. -/
def appRunOn (ticker : String) (pd : ProviderData) (llm : String → String) :
    List Event :=
  analyze_stock ticker (.ok pd.info) llm

/-! ## Claim-side definitions

Definitions that follow the *words of the claims* (not the code), used to
compare the code against the spec. -/

/-- From claim C1: the upper Bollinger band at the last row — the 20-day
rolling mean of closes plus two times the 20-day rolling standard
deviation. -/
noncomputable def bollingerUpperClaim (xs : List ℚ) : Option ℝ :=
  match rollingMeanLast 20 xs, rollingStd20Last xs with
  | some m, some s => some ((m : ℝ) + 2 * s)
  | _, _ => none

/-- From claim C1: the lower Bollinger band at the last row. -/
noncomputable def bollingerLowerClaim (xs : List ℚ) : Option ℝ :=
  match rollingMeanLast 20 xs, rollingStd20Last xs with
  | some m, some s => some ((m : ℝ) - 2 * s)
  | _, _ => none

/-- From claim C6: the average of the positive one-day price changes over
the trailing 14 days. -/
def gainAvgClaim (xs : List ℚ) : ℚ :=
  ((lastWindow 14 (deltaList xs)).map (fun d => max d 0)).sum / 14

/-- From claim C6: the average of the magnitudes of the negative one-day
price changes over the trailing 14 days. -/
def lossAvgClaim (xs : List ℚ) : ℚ :=
  ((lastWindow 14 (deltaList xs)).map (fun d => max (-d) 0)).sum / 14

/-- From claim C7: one step of the recurrence
`ema_t = a*x_t + (1-a)*ema_(t-1)` with `a = 2/(n+1)`. -/
def emaStepClaim (n : ℕ) (prev y : ℚ) : ℚ :=
  (2 / ((n : ℚ) + 1)) * y + (1 - 2 / ((n : ℚ) + 1)) * prev

/-- From claim C7: the value at the last row of the span-`n` EMA given by
the recurrence with `ema_0 = x_0` (`0` for the empty series, which the
claim excludes). -/
def emaLastClaim (n : ℕ) : List ℚ → ℚ
  | [] => 0
  | x :: rest => rest.foldl (fun prev y => emaStepClaim n prev y) x

/-- From claim C7: the whole span-`n` EMA series of the recurrence. -/
def emaSeriesClaim (n : ℕ) : List ℚ → List ℚ
  | [] => []
  | x :: rest => List.scanl (fun prev y => emaStepClaim n prev y) x rest

/-- From claim C7: the difference of the 12-span and 26-span EMA series
("that difference", whose 9-span EMA is the signal). -/
def macdDiffClaim (xs : List ℚ) : List ℚ :=
  List.zipWith (fun a b => a - b) (emaSeriesClaim 12 xs) (emaSeriesClaim 26 xs)

/-! ## Concrete inputs for counterexamples and witnesses -/

/-- An info dictionary with every optional field absent. -/
def emptyValInfo : ValInfo :=
  ⟨none, none, none, none, none, none, none, none, none, none, none, none,
   none, none, none, none, none, none, none⟩

/-- An info dictionary with every field absent. -/
def emptyInfo : Info :=
  ⟨none, none, none, none, none, none, none, none⟩

/-- A one-row history frame. -/
def histOne : PriceData := ⟨[1], [1]⟩

/-- The indicator record of the one-row history `histOne`. -/
def tiOne : TechnicalIndicators :=
  ⟨none, none, none, some 0, some 0, none, none, some 1⟩

/-- The metrics of `emptyValInfo`: every entry `None`. -/
def vmEmpty : ValMetrics :=
  ⟨⟨none, none, none, none, none, none⟩, ⟨none, none, none⟩,
   ⟨none, none, none, none, none⟩, ⟨none, none, none, none⟩⟩

/-- A 50-row close series: 30 rows at 0 followed by 20 rows at 1.  Its
trailing 20 rows are constant, so the 20-day standard deviation is 0,
while the 50-day mean (2/5) and the 20-day mean (1) differ. -/
def c1Series : List ℚ :=
  List.replicate 30 0 ++ List.replicate 20 1

/-- A 15-row close series whose one-day changes alternate between +1 and
-1, giving nonzero trailing gain and loss averages. -/
def c6Series : List ℚ :=
  [1, 2, 1, 2, 1, 2, 1, 2, 1, 2, 1, 2, 1, 2, 1]

/-- Concrete `professional_analysis` inputs for the data-flow
counterexample. -/
def c2Data : MainData := ⟨"INFO", emptyValInfo, histOne, "DESCRIBE"⟩

/-- The first (fundamental) prompt of that concrete run. -/
def c2P1 : String := fundamentalPromptFilled "TST" "INFO" "VMETRICS"

/-- The second (technical) prompt of that concrete run. -/
def c2P2 : String := technicalPromptFilled "TST" "INDICATORS" "DESCRIBE"

/-- An LLM endpoint answering `"ZOUTPUTZ"` to the fundamental prompt and
`"OTHER"` to everything else. -/
def c2Llm : String → String :=
  fun p => if p = c2P1 then "ZOUTPUTZ" else "OTHER"

/-- The concrete `professional_analysis` run for the data-flow
counterexample. -/
noncomputable def c2Trace : List Event :=
  professional_analysis "TST" (.ok c2Data)
    (fun _ => "INDICATORS") (fun _ => "VMETRICS") "0.00" c2Llm

/-- An info dictionary whose `longName` is present but the empty string
(falsy in Python). -/
def infoEmptyName : Info := { emptyInfo with longName := some "" }

/-- An info dictionary with a present, nonzero `interestExpense` but no
`earningsBeforeInterestTaxes`. -/
def tErrValInfo : ValInfo := { emptyValInfo with interestExpense := some 5 }

/-- A 50-row constant history at price 1. -/
def hist50a : PriceData := ⟨List.replicate 50 1, []⟩

/-- A 50-row constant history at price 2. -/
def hist50b : PriceData := ⟨List.replicate 50 2, []⟩

/-- An info dictionary with interest expense 4 and EBIT 12. -/
def covValInfo : ValInfo :=
  { emptyValInfo with interestExpense := some 4,
                      earningsBeforeInterestTaxes := some 12 }

/-! ## Derived pipeline observations (src/app.py)

Names for the prompts and outputs of the three stages of
`analyze_stock`, as functions of the run's inputs. -/

/-- The first (research) prompt of `analyze_stock`. -/
def appResearchPrompt (t : String) (f : Except String Info) : String :=
  researchPromptFilled t (get_basic_stock_info f)

/-- The first chain's output. -/
def appResearchOut (t : String) (f : Except String Info)
    (llm : String → String) : String :=
  llm (appResearchPrompt t f)

/-- The second (analysis) prompt, filled with the first output. -/
def appAnalysisPrompt (t : String) (f : Except String Info)
    (llm : String → String) : String :=
  analysisPromptFilled t (appResearchOut t f llm)

/-- The second chain's output. -/
def appAnalysisOut (t : String) (f : Except String Info)
    (llm : String → String) : String :=
  llm (appAnalysisPrompt t f llm)

/-- The third (recommendation) prompt, filled with both outputs. -/
def appRecommendationPrompt (t : String) (f : Except String Info)
    (llm : String → String) : String :=
  recommendationPromptFilled t (appResearchOut t f llm) (appAnalysisOut t f llm)

/-- The third chain's output. -/
def appRecommendationOut (t : String) (f : Except String Info)
    (llm : String → String) : String :=
  llm (appRecommendationPrompt t f llm)

unseal Rat.add Rat.sub Rat.mul Rat.inv Rat.ofScientific

/-! ## Helper lemmas -/

theorem deltaList_length (xs : List ℚ) :
    (deltaList xs).length = xs.length - 1 := by
  simp [deltaList]

theorem gainList_length (xs : List ℚ) :
    (gainList xs).length = xs.length - 1 := by
  simp [gainList, deltaList_length]

theorem lossList_length (xs : List ℚ) :
    (lossList xs).length = xs.length - 1 := by
  simp [lossList, deltaList_length]

theorem gainSeries_length (xs : List ℚ) (h : xs ≠ []) :
    (gainSeries xs).length = xs.length := by
  match xs, h with
  | x :: rest, _ =>
    have := gainList_length (x :: rest)
    simp [gainSeries, this]

theorem lossSeries_length (xs : List ℚ) (h : xs ≠ []) :
    (lossSeries xs).length = xs.length := by
  match xs, h with
  | x :: rest, _ =>
    have := lossList_length (x :: rest)
    simp [lossSeries, this]

theorem gain_eq_max (d : ℚ) : (if 0 < d then d else 0) = max d 0 := by
  rcases le_or_lt d 0 with h | h
  · simp [not_lt.mpr h, max_eq_right h]
  · simp [h, max_eq_left h.le]

theorem loss_eq_max (d : ℚ) : -(if d < 0 then d else 0) = max (-d) 0 := by
  rcases lt_or_le d 0 with h | h
  · rw [if_pos h, max_eq_left (by linarith)]
  · rw [if_neg (not_lt.mpr h), max_eq_right (by linarith), neg_zero]

theorem lastWindow_cons (w : ℕ) (x : ℚ) (l : List ℚ) (h : w ≤ l.length) :
    lastWindow w (x :: l) = lastWindow w l := by
  unfold lastWindow
  have h1 : (x :: l).length - w = (l.length - w) + 1 := by
    simp only [List.length_cons]; omega
  rw [h1, List.drop_succ_cons]

theorem lastWindow_map (f : ℚ → ℚ) (w : ℕ) (l : List ℚ) :
    lastWindow w (l.map f) = (lastWindow w l).map f := by
  simp [lastWindow, List.map_drop]

theorem rollingMeanLast_gainSeries (xs : List ℚ) (h : 15 ≤ xs.length) :
    rollingMeanLast 14 (gainSeries xs) = some (gainAvgClaim xs) := by
  match xs, h with
  | x :: rest, h =>
    have hgl : (gainList (x :: rest)).length = (x :: rest).length - 1 :=
      gainList_length _
    have h14 : 14 ≤ (gainList (x :: rest)).length := by omega
    have hlen : ¬ (gainSeries (x :: rest)).length < 14 := by
      rw [gainSeries_length _ (by simp)]; omega
    rw [show gainSeries (x :: rest) = 0 :: gainList (x :: rest) from rfl] at hlen ⊢
    rw [rollingMeanLast, if_neg hlen, lastWindow_cons 14 _ _ h14]
    rw [show gainList (x :: rest) =
      (deltaList (x :: rest)).map (fun d => if 0 < d then d else 0) from rfl]
    rw [lastWindow_map]
    simp only [gain_eq_max]
    rfl

theorem rollingMeanLast_lossSeries (xs : List ℚ) (h : 15 ≤ xs.length) :
    rollingMeanLast 14 (lossSeries xs) = some (lossAvgClaim xs) := by
  match xs, h with
  | x :: rest, h =>
    have hgl : (lossList (x :: rest)).length = (x :: rest).length - 1 :=
      lossList_length _
    have h14 : 14 ≤ (lossList (x :: rest)).length := by omega
    have hlen : ¬ (lossSeries (x :: rest)).length < 14 := by
      rw [lossSeries_length _ (by simp)]; omega
    rw [show lossSeries (x :: rest) = 0 :: lossList (x :: rest) from rfl] at hlen ⊢
    rw [rollingMeanLast, if_neg hlen, lastWindow_cons 14 _ _ h14]
    rw [show lossList (x :: rest) =
      (deltaList (x :: rest)).map (fun d => -(if d < 0 then d else 0)) from rfl]
    rw [lastWindow_map]
    simp only [loss_eq_max]
    rfl

theorem ewmFrom_length (a prev : ℚ) (l : List ℚ) :
    (ewmFrom a prev l).length = l.length := by
  induction l generalizing prev with
  | nil => rfl
  | cons x t ih => simp [ewmFrom, ih]

theorem ewmMean_length (n : ℕ) (xs : List ℚ) :
    (ewmMean n xs).length = xs.length := by
  cases xs with
  | nil => rfl
  | cons x rest => simp [ewmMean, ewmFrom_length]

theorem getLast?_cons_ewmFrom (a : ℚ) (l : List ℚ) :
    ∀ prev : ℚ, (prev :: ewmFrom a prev l).getLast? =
      some (l.foldl (fun p y => ewmStep a p y) prev) := by
  induction l with
  | nil => intro prev; rfl
  | cons y t ih =>
    intro prev
    show (prev :: ewmStep a prev y :: ewmFrom a (ewmStep a prev y) t).getLast? = _
    rw [List.getLast?_cons_cons]
    exact ih (ewmStep a prev y)

theorem ewmMean_getLast? (n : ℕ) (xs : List ℚ) (h : xs ≠ []) :
    (ewmMean n xs).getLast? = some (emaLastClaim n xs) := by
  match xs, h with
  | x :: rest, _ =>
    show (x :: ewmFrom (2 / ((n : ℚ) + 1)) x rest).getLast? = _
    rw [getLast?_cons_ewmFrom]
    rfl

theorem scanl_eq_cons_ewmFrom (n : ℕ) (l : List ℚ) :
    ∀ x : ℚ, List.scanl (fun prev y => emaStepClaim n prev y) x l =
      x :: ewmFrom (2 / ((n : ℚ) + 1)) x l := by
  induction l with
  | nil => intro x; rfl
  | cons y t ih =>
    intro x
    rw [List.scanl_cons, ih (emaStepClaim n x y)]
    rfl

theorem ewmMean_eq_claim (n : ℕ) (xs : List ℚ) :
    ewmMean n xs = emaSeriesClaim n xs := by
  cases xs with
  | nil => rfl
  | cons x rest => exact (scanl_eq_cons_ewmFrom n rest x).symm

theorem getLast?_zipWith (f : ℚ → ℚ → ℚ) :
    ∀ (l1 l2 : List ℚ) (a b : ℚ), l1.length = l2.length →
      l1.getLast? = some a → l2.getLast? = some b →
      (List.zipWith f l1 l2).getLast? = some (f a b) := by
  intro l1
  induction l1 with
  | nil => intro l2 a b _ ha _; simp at ha
  | cons x t1 ih =>
    intro l2 a b hlen ha hb
    cases l2 with
    | nil => simp at hlen
    | cons y t2 =>
      cases t1 with
      | nil =>
        cases t2 with
        | nil =>
          simp only [List.getLast?_singleton, Option.some.injEq] at ha hb
          subst ha; subst hb; rfl
        | cons z t => simp at hlen
      | cons x1 t1a =>
        cases t2 with
        | nil => simp at hlen
        | cons y1 t2a =>
          show (f x y :: (f x1 y1 :: List.zipWith f t1a t2a)).getLast? = _
          rw [List.getLast?_cons_cons]
          rw [List.getLast?_cons_cons] at ha hb
          exact ih (y1 :: t2a) a b (by simpa using hlen) ha hb

theorem macdList_getLast? (xs : List ℚ) (h : xs ≠ []) :
    (macdList xs).getLast? = some (emaLastClaim 12 xs - emaLastClaim 26 xs) :=
  getLast?_zipWith _ _ _ _ _ (by simp [ewmMean_length])
    (ewmMean_getLast? 12 xs h) (ewmMean_getLast? 26 xs h)

theorem macdList_ne_nil (xs : List ℚ) (h : xs ≠ []) : macdList xs ≠ [] := by
  have hl : (macdList xs).length = xs.length := by
    simp [macdList, ewmMean_length]
  intro hnil
  rw [hnil] at hl
  exact h (List.length_eq_zero.mp hl.symm)

theorem macdList_eq_claim (xs : List ℚ) : macdList xs = macdDiffClaim xs := by
  simp [macdList, macdDiffClaim, ewmMean_eq_claim]

theorem signalList_getLast? (xs : List ℚ) (h : xs ≠ []) :
    (signalList xs).getLast? = some (emaLastClaim 9 (macdDiffClaim xs)) := by
  rw [signalList, ewmMean_getLast? 9 _ (macdList_ne_nil xs h), macdList_eq_claim]

/-! ## Claim C1 -/

set_option maxRecDepth 8000 in
/-- Claim C1 (code_bug): for a 50-row series the code's `upper_band` and
`lower_band` are NOT the Bollinger Bands of the claim.  On `c1Series`
(trailing 20 rows constant, so the 20-day standard deviation is 0) the
code returns `2/5` for both bands — the 50-day mean that line 109 of
src/main.py mixes into the formula — while the Bollinger value of the
claim is the 20-day mean, `1`. -/
theorem C1_bollinger_bands_use_sma50 :
    Except.map (fun ti => (ti.upper_band, ti.lower_band))
        (calculate_technical_indicators ⟨c1Series, []⟩)
      = .ok (some ((2 : ℝ) / 5), some ((2 : ℝ) / 5))
  ∧ bollingerUpperClaim c1Series = some 1
  ∧ bollingerLowerClaim c1Series = some 1
  ∧ ((2 : ℝ) / 5) ≠ 1 := by
  have h50 : rollingMeanLast 50 c1Series = some (2 / 5) := by decide
  have h20 : rollingMeanLast 20 c1Series = some 1 := by decide
  have hv : rollingVar20Last c1Series = some 0 := by decide
  have hne : c1Series ≠ [] := by decide
  refine ⟨?_, ?_, ?_, by norm_num⟩
  · norm_num [calculate_technical_indicators, hne, upperBandLast, lowerBandLast,
      rollingStd20Last, hv, h50, Except.map, Real.sqrt_zero]
  · norm_num [bollingerUpperClaim, rollingStd20Last, hv, h20, Real.sqrt_zero]
  · norm_num [bollingerLowerClaim, rollingStd20Last, hv, h20, Real.sqrt_zero]

/-! ## Claim C8 -/

/-- Claim C8 (counterexample): the claim asserts a `NaN` last value for
*every* series with fewer than `w` rows, but on the empty series
`calculate_technical_indicators` raises `IndexError` at the first
`.iloc[-1]` (src/main.py, line 113) instead of returning anything. -/
theorem C8_empty_series_raises :
    calculate_technical_indicators ⟨[], []⟩
      = .error "IndexError: single positional indexer is out-of-bounds"
  ∧ (calculate_technical_indicators ⟨[], []⟩).isOk = false := by
  constructor <;> rfl

/-- Claim C8 (amended): for every *non-empty* close series, each rolling
indicator's returned last value is `NaN` whenever the series is shorter
than its window: `sma_50` below 50 rows, `sma_200` below 200 rows, the
RSI below 14 rows, and both Bollinger bands (which contain the 20-day
rolling standard deviation) below 20 rows. -/
theorem C8_nan_at_boundaries (xs vols : List ℚ) (hne : xs ≠ []) :
    (xs.length < 50 →
      Except.map (fun ti => ti.sma_50)
        (calculate_technical_indicators ⟨xs, vols⟩) = .ok none)
  ∧ (xs.length < 200 →
      Except.map (fun ti => ti.sma_200)
        (calculate_technical_indicators ⟨xs, vols⟩) = .ok none)
  ∧ (xs.length < 14 →
      Except.map (fun ti => ti.rsi)
        (calculate_technical_indicators ⟨xs, vols⟩) = .ok none)
  ∧ (xs.length < 20 →
      Except.map (fun ti => (ti.upper_band, ti.lower_band))
        (calculate_technical_indicators ⟨xs, vols⟩) = .ok (none, none)) := by
  refine ⟨fun h => ?_, fun h => ?_, fun h => ?_, fun h => ?_⟩
  · simp [calculate_technical_indicators, hne, rollingMeanLast, h, Except.map]
  · simp [calculate_technical_indicators, hne, rollingMeanLast, h, Except.map]
  · have hg : rollingMeanLast 14 (gainSeries xs) = none := by
      simp [rollingMeanLast, gainSeries_length xs hne, h]
    rcases h2 : rollingMeanLast 14 (lossSeries xs) with _ | l <;>
      simp [calculate_technical_indicators, hne, rsiLast, hg, h2, Except.map]
  · have hv : rollingVar20Last xs = none := by
      simp [rollingVar20Last, h]
    rcases h2 : rollingMeanLast 50 xs with _ | m <;>
      simp [calculate_technical_indicators, hne, upperBandLast, lowerBandLast,
        rollingStd20Last, hv, h2, Except.map]

/-- Witness for `C8_nan_at_boundaries` at the one-row series. -/
theorem C8_nan_at_boundaries_witness :
    Except.map (fun ti => ti.sma_50)
      (calculate_technical_indicators ⟨[1], [1]⟩) = .ok none
  ∧ Except.map (fun ti => ti.sma_200)
      (calculate_technical_indicators ⟨[1], [1]⟩) = .ok none
  ∧ Except.map (fun ti => ti.rsi)
      (calculate_technical_indicators ⟨[1], [1]⟩) = .ok none
  ∧ Except.map (fun ti => (ti.upper_band, ti.lower_band))
      (calculate_technical_indicators ⟨[1], [1]⟩) = .ok (none, none) := by
  have h := C8_nan_at_boundaries [1] [1] (by decide)
  exact ⟨h.1 (by decide), h.2.1 (by decide), h.2.2.1 (by decide),
    h.2.2.2 (by decide)⟩

/-! ## Claim C9 -/

/-- Claim C9 (counterexample): a present-but-falsy string field is *not*
rendered as `"N/A"`.  With `longName` present and equal to the empty
string (falsy in Python), the `Name` line is `"Name: "`, because the
string fields use a plain `info.get(key, "N/A")` whose default applies
only to a missing key. -/
theorem C9_empty_name_not_rendered_na :
    strFalsy infoEmptyName.longName = true
  ∧ nameLine infoEmptyName = "Name: "
  ∧ nameLine infoEmptyName ≠ "Name: N/A"
  ∧ get_basic_stock_info (.ok infoEmptyName) =
      "Name: \nSector: N/A\nIndustry: N/A\nMarket Cap: N/A\nCurrent Price: N/A\n52 Week High: N/A\n52 Week Low: N/A\nAverage Volume: N/A" := by
  refine ⟨rfl, rfl, by decide, rfl⟩

/-- Claim C9 (amended): `get_basic_stock_info` is total over its error
channel — a failed fetch returns `"Error fetching stock info: "` followed
by the exception text — and the truthiness-guarded numeric fields (Market
Cap, Current Price, 52 Week High, 52 Week Low, Average Volume) render
`"N/A"` whenever missing or falsy (including a current price of exactly
0), while the plain-`get` string fields (Name, Sector, Industry) render
`"N/A"` only when missing. -/
theorem C9_error_channel_and_na_rendering (info : Info) (e : String) :
    get_basic_stock_info (.error e) = "Error fetching stock info: " ++ e
  ∧ (intFalsy info.marketCap = true → marketCapLine info = "Market Cap: N/A")
  ∧ (ratFalsy info.currentPrice = true →
      currentPriceLine info = "Current Price: N/A")
  ∧ (ratFalsy info.fiftyTwoWeekHigh = true →
      fiftyTwoWeekHighLine info = "52 Week High: N/A")
  ∧ (ratFalsy info.fiftyTwoWeekLow = true →
      fiftyTwoWeekLowLine info = "52 Week Low: N/A")
  ∧ (intFalsy info.averageVolume = true →
      averageVolumeLine info = "Average Volume: N/A")
  ∧ (info.longName = none → nameLine info = "Name: N/A")
  ∧ (info.sector = none → sectorLine info = "Sector: N/A")
  ∧ (info.industry = none → industryLine info = "Industry: N/A") := by
  refine ⟨rfl, fun h => ?_, fun h => ?_, fun h => ?_, fun h => ?_, fun h => ?_,
    fun h => ?_, fun h => ?_, fun h => ?_⟩
  · simp [marketCapLine, h]
  · simp [currentPriceLine, h]
  · simp [fiftyTwoWeekHighLine, h]
  · simp [fiftyTwoWeekLowLine, h]
  · simp [averageVolumeLine, h]
  · simp [nameLine, h]
  · simp [sectorLine, h]
  · simp [industryLine, h]

/-- Witness for `C9_error_channel_and_na_rendering` at the all-absent
info dictionary. -/
theorem C9_error_channel_witness :
    get_basic_stock_info (.error "boom") = "Error fetching stock info: " ++ "boom"
  ∧ marketCapLine emptyInfo = "Market Cap: N/A"
  ∧ currentPriceLine emptyInfo = "Current Price: N/A"
  ∧ fiftyTwoWeekHighLine emptyInfo = "52 Week High: N/A"
  ∧ fiftyTwoWeekLowLine emptyInfo = "52 Week Low: N/A"
  ∧ averageVolumeLine emptyInfo = "Average Volume: N/A"
  ∧ nameLine emptyInfo = "Name: N/A"
  ∧ sectorLine emptyInfo = "Sector: N/A"
  ∧ industryLine emptyInfo = "Industry: N/A" := by
  have h := C9_error_channel_and_na_rendering emptyInfo "boom"
  exact ⟨h.1, h.2.1 rfl, h.2.2.1 rfl, h.2.2.2.1 rfl, h.2.2.2.2.1 rfl,
    h.2.2.2.2.2.1 rfl, h.2.2.2.2.2.2.1 rfl, h.2.2.2.2.2.2.2.1 rfl,
    h.2.2.2.2.2.2.2.2 rfl⟩

/-! ## Claim C10 -/

/-- Claim C10 (counterexample): `generate_valuation_metrics` is *not*
total — with `interestExpense` present and nonzero but
`earningsBeforeInterestTaxes` missing, the division on line 158 of
src/main.py is `None / 5`, a `TypeError`. -/
theorem C10_none_division_type_error :
    generate_valuation_metrics tErrValInfo
      = .error "TypeError: unsupported operand types for /: NoneType and float"
  ∧ (generate_valuation_metrics tErrValInfo).isOk = false := by
  constructor <;> rfl

/-- Claim C10 (amended): `interest_coverage` is
`earningsBeforeInterestTaxes / interestExpense` when both are present and
`interestExpense` is nonzero, and `None` when `interestExpense` is
missing or zero (Python truthiness guards the division); but when
`interestExpense` is present and nonzero while
`earningsBeforeInterestTaxes` is missing, the call raises `TypeError`
instead of returning. -/
theorem C10_interest_coverage_guard (info : ValInfo) :
    (info.interestExpense = none →
      Except.map (fun m => m.financial_health.interest_coverage)
        (generate_valuation_metrics info) = .ok none)
  ∧ (info.interestExpense = some 0 →
      Except.map (fun m => m.financial_health.interest_coverage)
        (generate_valuation_metrics info) = .ok none)
  ∧ (∀ v e : ℚ, info.interestExpense = some v → v ≠ 0 →
      info.earningsBeforeInterestTaxes = some e →
      Except.map (fun m => m.financial_health.interest_coverage)
        (generate_valuation_metrics info) = .ok (some (e / v)))
  ∧ (∀ v : ℚ, info.interestExpense = some v → v ≠ 0 →
      info.earningsBeforeInterestTaxes = none →
      generate_valuation_metrics info =
        .error "TypeError: unsupported operand types for /: NoneType and float") := by
  refine ⟨fun h => ?_, fun h => ?_, fun v e hv hnz he => ?_, fun v hv hnz hn => ?_⟩
  · simp [generate_valuation_metrics, interestCoverageEntry, h, Except.map]
  · simp [generate_valuation_metrics, interestCoverageEntry, h, Except.map]
  · simp [generate_valuation_metrics, interestCoverageEntry, hv, hnz, he, Except.map]
  · simp [generate_valuation_metrics, interestCoverageEntry, hv, hnz, hn]

/-- Witness for `C10_interest_coverage_guard`: the absent case and the
division case at concrete dictionaries. -/
theorem C10_interest_coverage_witness :
    Except.map (fun m => m.financial_health.interest_coverage)
      (generate_valuation_metrics emptyValInfo) = .ok none
  ∧ Except.map (fun m => m.financial_health.interest_coverage)
      (generate_valuation_metrics covValInfo) = .ok (some ((12 : ℚ) / 4)) := by
  refine ⟨(C10_interest_coverage_guard emptyValInfo).1 rfl, ?_⟩
  exact (C10_interest_coverage_guard covValInfo).2.2.1 4 12 rfl (by norm_num) rfl

/-! ## Claim C6 -/

/-- Claim C6 (confirmed): for every close series with at least 15 rows,
the returned `rsi` equals `100 - 100/(1 + RS)` at the last row, where
`RS` is the trailing-14-day average of the positive one-day changes
divided by the trailing-14-day average of the magnitudes of the negative
one-day changes.  The hypothesis that the loss average is nonzero
restricts the statement to the regime where exact rational division
models the code's floating-point division (with an all-gain window the
float code produces `rs = inf`, `rsi = 100`). -/
theorem C6_rsi_last_row (xs vols : List ℚ) (h : 15 ≤ xs.length)
    (hl : lossAvgClaim xs ≠ 0) :
    Except.map (fun ti => ti.rsi) (calculate_technical_indicators ⟨xs, vols⟩)
      = .ok (some (100 - 100 / (1 + gainAvgClaim xs / lossAvgClaim xs))) := by
  have hne : xs ≠ [] := by
    intro hnil; rw [hnil] at h; simp at h
  simp [calculate_technical_indicators, hne, Except.map, rsiLast,
    rollingMeanLast_gainSeries xs h, rollingMeanLast_lossSeries xs h]

set_option maxRecDepth 8000 in
/-- Witness for `C6_rsi_last_row` at the 15-row alternating series. -/
theorem C6_rsi_last_row_witness :
    15 ≤ c6Series.length ∧ lossAvgClaim c6Series ≠ 0
  ∧ Except.map (fun ti => ti.rsi) (calculate_technical_indicators ⟨c6Series, []⟩)
      = .ok (some (100 - 100 / (1 + gainAvgClaim c6Series / lossAvgClaim c6Series))) :=
  ⟨by decide, by decide, C6_rsi_last_row c6Series [] (by decide) (by decide)⟩

/-! ## Claim C7 -/

/-- Claim C7 (confirmed): for every non-empty close series, the returned
`macd` is, at the last row, the difference of the 12-span and 26-span
`adjust=False` exponential moving averages of the closes, and the
returned `signal` is the last row of the 9-span EMA of that difference
series, where each span-`n` EMA follows the recurrence
`ema_t = a*x_t + (1-a)*ema_(t-1)`, `a = 2/(n+1)`, `ema_0 = x_0`. -/
theorem C7_macd_signal_last_row (xs vols : List ℚ) (h : xs ≠ []) :
    Except.map (fun ti => (ti.macd, ti.signal))
        (calculate_technical_indicators ⟨xs, vols⟩)
      = .ok (some (emaLastClaim 12 xs - emaLastClaim 26 xs),
             some (emaLastClaim 9 (macdDiffClaim xs))) := by
  simp [calculate_technical_indicators, h, Except.map,
    macdList_getLast? xs h, signalList_getLast? xs h]

/-- Witness for `C7_macd_signal_last_row` at a two-row series. -/
theorem C7_macd_signal_witness :
    Except.map (fun ti => (ti.macd, ti.signal))
        (calculate_technical_indicators ⟨[1, 2], []⟩)
      = .ok (some (emaLastClaim 12 [1, 2] - emaLastClaim 26 [1, 2]),
             some (emaLastClaim 9 (macdDiffClaim [1, 2]))) :=
  C7_macd_signal_last_row [1, 2] [] (by decide)

/-! ## String and trace helper lemmas -/

theorem string_append_toList (s t : String) :
    (s ++ t).toList = s.toList ++ t.toList := rfl

theorem infix_middle (a m b : String) :
    m.toList <:+: (a ++ m ++ b).toList := by
  rw [string_append_toList, string_append_toList]
  exact List.infix_append _ _ _

theorem infix_end (a m : String) : m.toList <:+: (a ++ m).toList := by
  rw [string_append_toList]
  exact ⟨a.toList, [], by simp⟩

theorem infix_pad_right (m l r : List Char) (h : m <:+: l) :
    m <:+: l ++ r := by
  obtain ⟨p, q, hp⟩ := h
  exact ⟨p, q ++ r, by rw [← hp]; simp⟩

theorem analyze_stock_callsOf (t : String) (f : Except String Info)
    (llm : String → String) :
    callsOf (analyze_stock t f llm) =
      [(appResearchPrompt t f, appResearchOut t f llm),
       (appAnalysisPrompt t f llm, appAnalysisOut t f llm),
       (appRecommendationPrompt t f llm, appRecommendationOut t f llm)] := rfl

theorem professional_analysis_ok_trace (t es : String) (d : MainData)
    (rI : TechnicalIndicators → String) (rV : ValMetrics → String)
    (llm : String → String) (ti : TechnicalIndicators) (vm : ValMetrics)
    (hti : calculate_technical_indicators d.hist = .ok ti)
    (hvm : generate_valuation_metrics d.valInfo = .ok vm) :
    professional_analysis t (.ok d) rI rV es llm =
      [.consoleOut (profHeader t), .consoleOut collectMsg, .consoleOut calcMsg,
       .consoleOut fundMsg, .consoleOut conductMsg,
       .llmCall (fundamentalPromptFilled t d.infoStr (rV vm))
         (llm (fundamentalPromptFilled t d.infoStr (rV vm))),
       .consoleOut performMsg,
       .llmCall (technicalPromptFilled t (rI ti) d.describeStr)
         (llm (technicalPromptFilled t (rI ti) d.describeStr)),
       .consoleOut formulateMsg,
       .llmCall (mainRecommendationPromptFilled t
           (llm (fundamentalPromptFilled t d.infoStr (rV vm)))
           (llm (technicalPromptFilled t (rI ti) d.describeStr)))
         (llm (mainRecommendationPromptFilled t
           (llm (fundamentalPromptFilled t d.infoStr (rV vm)))
           (llm (technicalPromptFilled t (rI ti) d.describeStr)))),
       .consoleOut ("\n" ++ eqBar), .consoleOut (reportHeader t),
       .consoleOut eqBar, .consoleOut fundHeader,
       .consoleOut (llm (fundamentalPromptFilled t d.infoStr (rV vm))),
       .consoleOut techHeader,
       .consoleOut (llm (technicalPromptFilled t (rI ti) d.describeStr)),
       .consoleOut recHeader,
       .consoleOut (llm (mainRecommendationPromptFilled t
           (llm (fundamentalPromptFilled t d.infoStr (rV vm)))
           (llm (technicalPromptFilled t (rI ti) d.describeStr)))),
       .consoleOut ("\n" ++ eqBar), .consoleOut (timingLine es)] := by
  simp only [professional_analysis, hti, hvm]

/-! ## Claim C2 -/

set_option maxRecDepth 100000 in
/-- Claim C2 (counterexample): in src/main.py the second chain's prompt is
*not* filled with the first chain's output.  In a concrete run whose first
chain answers `"ZOUTPUTZ"`, the second prompt is the technical template
filled with the indicator and price-data strings, and the first output
does not occur in it at all. -/
theorem C2_second_prompt_ignores_first_output :
    callsOf c2Trace =
      [(c2P1, "ZOUTPUTZ"), (c2P2, "OTHER"),
       (mainRecommendationPromptFilled "TST" "ZOUTPUTZ" "OTHER", "OTHER")]
  ∧ ¬ ("ZOUTPUTZ".toList <:+: c2P2.toList) := by
  constructor
  · rfl
  · decide

/-- Claim C2 (amended): in src/app.py the threading is as claimed — the
second prompt is the analysis template filled with exactly the first
chain's output, and the third with both outputs, each occurring verbatim.
In src/main.py the second chain's prompt is filled from the data stage
(indicator and price-data strings) for *every* LLM — hence independent of
the first chain's output — and only the third prompt is filled with the
first and second outputs. -/
theorem C2_prompt_threading (t es : String) (f : Except String Info)
    (llm : String → String) (d : MainData)
    (rI : TechnicalIndicators → String) (rV : ValMetrics → String)
    (ti : TechnicalIndicators) (vm : ValMetrics)
    (hti : calculate_technical_indicators d.hist = .ok ti)
    (hvm : generate_valuation_metrics d.valInfo = .ok vm) :
    appAnalysisPrompt t f llm = analysisPromptFilled t (appResearchOut t f llm)
  ∧ (appResearchOut t f llm).toList <:+: (appAnalysisPrompt t f llm).toList
  ∧ (appResearchOut t f llm).toList <:+: (appRecommendationPrompt t f llm).toList
  ∧ (appAnalysisOut t f llm).toList <:+: (appRecommendationPrompt t f llm).toList
  ∧ ((callsOf (professional_analysis t (.ok d) rI rV es llm)).map Prod.fst).get? 1
      = some (technicalPromptFilled t (rI ti) d.describeStr)
  ∧ (llm (fundamentalPromptFilled t d.infoStr (rV vm))).toList <:+:
      (mainRecommendationPromptFilled t
        (llm (fundamentalPromptFilled t d.infoStr (rV vm)))
        (llm (technicalPromptFilled t (rI ti) d.describeStr))).toList
  ∧ (llm (technicalPromptFilled t (rI ti) d.describeStr)).toList <:+:
      (mainRecommendationPromptFilled t
        (llm (fundamentalPromptFilled t d.infoStr (rV vm)))
        (llm (technicalPromptFilled t (rI ti) d.describeStr))).toList := by
  refine ⟨rfl, ?_, ?_, ?_, ?_, ?_, ?_⟩
  · exact infix_middle _ _ _
  · unfold appRecommendationPrompt recommendationPromptFilled
    rw [string_append_toList, string_append_toList, string_append_toList]
    exact infix_pad_right _ _ _ (infix_pad_right _ _ _ (infix_pad_right _ _ _
      (infix_end _ _)))
  · unfold appRecommendationPrompt recommendationPromptFilled
    rw [string_append_toList]
    exact infix_pad_right _ _ _ (infix_end _ _)
  · rw [professional_analysis_ok_trace t es d rI rV llm ti vm hti hvm]
    rfl
  · unfold mainRecommendationPromptFilled
    rw [string_append_toList, string_append_toList, string_append_toList]
    exact infix_pad_right _ _ _ (infix_pad_right _ _ _ (infix_pad_right _ _ _
      (infix_end _ _)))
  · unfold mainRecommendationPromptFilled
    rw [string_append_toList]
    exact infix_pad_right _ _ _ (infix_end _ _)

/-- Witness for `C2_prompt_threading` at a concrete run. -/
theorem C2_prompt_threading_witness :
    appAnalysisPrompt "TST" (.error "x") (fun _ => "R")
      = analysisPromptFilled "TST" (appResearchOut "TST" (.error "x") (fun _ => "R"))
  ∧ (appResearchOut "TST" (.error "x") (fun _ => "R")).toList <:+:
      (appAnalysisPrompt "TST" (.error "x") (fun _ => "R")).toList
  ∧ (appResearchOut "TST" (.error "x") (fun _ => "R")).toList <:+:
      (appRecommendationPrompt "TST" (.error "x") (fun _ => "R")).toList
  ∧ (appAnalysisOut "TST" (.error "x") (fun _ => "R")).toList <:+:
      (appRecommendationPrompt "TST" (.error "x") (fun _ => "R")).toList
  ∧ ((callsOf (professional_analysis "TST" (.ok c2Data)
        (fun _ => "INDICATORS") (fun _ => "VMETRICS") "0.00"
        (fun _ => "R"))).map Prod.fst).get? 1
      = some (technicalPromptFilled "TST"
          ((fun _ => "INDICATORS") tiOne) c2Data.describeStr)
  ∧ ((fun _ : String => "R") (fundamentalPromptFilled "TST" c2Data.infoStr
        ((fun _ => "VMETRICS") vmEmpty))).toList <:+:
      (mainRecommendationPromptFilled "TST"
        ((fun _ : String => "R") (fundamentalPromptFilled "TST" c2Data.infoStr
          ((fun _ => "VMETRICS") vmEmpty)))
        ((fun _ : String => "R") (technicalPromptFilled "TST"
          ((fun _ => "INDICATORS") tiOne) c2Data.describeStr))).toList
  ∧ ((fun _ : String => "R") (technicalPromptFilled "TST"
        ((fun _ => "INDICATORS") tiOne) c2Data.describeStr)).toList <:+:
      (mainRecommendationPromptFilled "TST"
        ((fun _ : String => "R") (fundamentalPromptFilled "TST" c2Data.infoStr
          ((fun _ => "VMETRICS") vmEmpty)))
        ((fun _ : String => "R") (technicalPromptFilled "TST"
          ((fun _ => "INDICATORS") tiOne) c2Data.describeStr))).toList :=
  C2_prompt_threading "TST" "0.00" (.error "x") (fun _ => "R") c2Data
    (fun _ => "INDICATORS") (fun _ => "VMETRICS") tiOne vmEmpty rfl rfl

/-! ## Claim C3 -/

/-- Claim C3 (confirmed): a single analysis run in which the data stages
succeed makes exactly three LLM-chain calls, in program order — each
prompt built only from values available after the previous call returned
— and each of the three responses appears in the console output.  This
holds for `analyze_stock` (src/app.py, whose data stage never raises) and
for `professional_analysis` (src/main.py). -/
theorem C3_three_sequential_calls_printed (t es : String)
    (f : Except String Info) (llm : String → String) (d : MainData)
    (rI : TechnicalIndicators → String) (rV : ValMetrics → String)
    (ti : TechnicalIndicators) (vm : ValMetrics)
    (hti : calculate_technical_indicators d.hist = .ok ti)
    (hvm : generate_valuation_metrics d.valInfo = .ok vm) :
    callsOf (analyze_stock t f llm) =
      [(appResearchPrompt t f, appResearchOut t f llm),
       (appAnalysisPrompt t f llm, appAnalysisOut t f llm),
       (appRecommendationPrompt t f llm, appRecommendationOut t f llm)]
  ∧ appResearchOut t f llm ∈ outsOf (analyze_stock t f llm)
  ∧ appAnalysisOut t f llm ∈ outsOf (analyze_stock t f llm)
  ∧ appRecommendationOut t f llm ∈ outsOf (analyze_stock t f llm)
  ∧ callsOf (professional_analysis t (.ok d) rI rV es llm) =
      [(fundamentalPromptFilled t d.infoStr (rV vm),
        llm (fundamentalPromptFilled t d.infoStr (rV vm))),
       (technicalPromptFilled t (rI ti) d.describeStr,
        llm (technicalPromptFilled t (rI ti) d.describeStr)),
       (mainRecommendationPromptFilled t
          (llm (fundamentalPromptFilled t d.infoStr (rV vm)))
          (llm (technicalPromptFilled t (rI ti) d.describeStr)),
        llm (mainRecommendationPromptFilled t
          (llm (fundamentalPromptFilled t d.infoStr (rV vm)))
          (llm (technicalPromptFilled t (rI ti) d.describeStr))))]
  ∧ llm (fundamentalPromptFilled t d.infoStr (rV vm)) ∈
      outsOf (professional_analysis t (.ok d) rI rV es llm)
  ∧ llm (technicalPromptFilled t (rI ti) d.describeStr) ∈
      outsOf (professional_analysis t (.ok d) rI rV es llm)
  ∧ llm (mainRecommendationPromptFilled t
        (llm (fundamentalPromptFilled t d.infoStr (rV vm)))
        (llm (technicalPromptFilled t (rI ti) d.describeStr))) ∈
      outsOf (professional_analysis t (.ok d) rI rV es llm) := by
  rw [professional_analysis_ok_trace t es d rI rV llm ti vm hti hvm]
  refine ⟨analyze_stock_callsOf t f llm, ?_, ?_, ?_, rfl, ?_, ?_, ?_⟩ <;>
    simp [outsOf, analyze_stock, appResearchOut, appAnalysisOut,
      appRecommendationOut, appResearchPrompt, appAnalysisPrompt,
      appRecommendationPrompt]

/-- Witness for `C3_three_sequential_calls_printed` at a concrete run. -/
theorem C3_three_calls_witness :
    callsOf (analyze_stock "AAPL" (.error "x") (fun _ => "R")) =
      [(appResearchPrompt "AAPL" (.error "x"),
        appResearchOut "AAPL" (.error "x") (fun _ => "R")),
       (appAnalysisPrompt "AAPL" (.error "x") (fun _ => "R"),
        appAnalysisOut "AAPL" (.error "x") (fun _ => "R")),
       (appRecommendationPrompt "AAPL" (.error "x") (fun _ => "R"),
        appRecommendationOut "AAPL" (.error "x") (fun _ => "R"))]
  ∧ appResearchOut "AAPL" (.error "x") (fun _ => "R") ∈
      outsOf (analyze_stock "AAPL" (.error "x") (fun _ => "R"))
  ∧ appAnalysisOut "AAPL" (.error "x") (fun _ => "R") ∈
      outsOf (analyze_stock "AAPL" (.error "x") (fun _ => "R"))
  ∧ appRecommendationOut "AAPL" (.error "x") (fun _ => "R") ∈
      outsOf (analyze_stock "AAPL" (.error "x") (fun _ => "R"))
  ∧ callsOf (professional_analysis "AAPL" (.ok c2Data)
        (fun _ => "INDICATORS") (fun _ => "VMETRICS") "0.00" (fun _ => "R")) =
      [(fundamentalPromptFilled "AAPL" c2Data.infoStr
          ((fun _ => "VMETRICS") vmEmpty),
        (fun _ : String => "R") (fundamentalPromptFilled "AAPL" c2Data.infoStr
          ((fun _ => "VMETRICS") vmEmpty))),
       (technicalPromptFilled "AAPL" ((fun _ => "INDICATORS") tiOne)
          c2Data.describeStr,
        (fun _ : String => "R") (technicalPromptFilled "AAPL"
          ((fun _ => "INDICATORS") tiOne) c2Data.describeStr)),
       (mainRecommendationPromptFilled "AAPL"
          ((fun _ : String => "R") (fundamentalPromptFilled "AAPL"
            c2Data.infoStr ((fun _ => "VMETRICS") vmEmpty)))
          ((fun _ : String => "R") (technicalPromptFilled "AAPL"
            ((fun _ => "INDICATORS") tiOne) c2Data.describeStr)),
        (fun _ : String => "R") (mainRecommendationPromptFilled "AAPL"
          ((fun _ : String => "R") (fundamentalPromptFilled "AAPL"
            c2Data.infoStr ((fun _ => "VMETRICS") vmEmpty)))
          ((fun _ : String => "R") (technicalPromptFilled "AAPL"
            ((fun _ => "INDICATORS") tiOne) c2Data.describeStr))))]
  ∧ (fun _ : String => "R") (fundamentalPromptFilled "AAPL" c2Data.infoStr
        ((fun _ => "VMETRICS") vmEmpty)) ∈
      outsOf (professional_analysis "AAPL" (.ok c2Data)
        (fun _ => "INDICATORS") (fun _ => "VMETRICS") "0.00" (fun _ => "R"))
  ∧ (fun _ : String => "R") (technicalPromptFilled "AAPL"
        ((fun _ => "INDICATORS") tiOne) c2Data.describeStr) ∈
      outsOf (professional_analysis "AAPL" (.ok c2Data)
        (fun _ => "INDICATORS") (fun _ => "VMETRICS") "0.00" (fun _ => "R"))
  ∧ (fun _ : String => "R") (mainRecommendationPromptFilled "AAPL"
        ((fun _ : String => "R") (fundamentalPromptFilled "AAPL"
          c2Data.infoStr ((fun _ => "VMETRICS") vmEmpty)))
        ((fun _ : String => "R") (technicalPromptFilled "AAPL"
          ((fun _ => "INDICATORS") tiOne) c2Data.describeStr))) ∈
      outsOf (professional_analysis "AAPL" (.ok c2Data)
        (fun _ => "INDICATORS") (fun _ => "VMETRICS") "0.00" (fun _ => "R")) :=
  C3_three_sequential_calls_printed "AAPL" "0.00" (.error "x") (fun _ => "R")
    c2Data (fun _ => "INDICATORS") (fun _ => "VMETRICS") tiOne vmEmpty rfl rfl

/-! ## Claim C4 -/

/-- Claim C4 (confirmed): the only failure recovery is the catch-all
handler that prints the exception.  In src/app.py, a ticker whose
analysis raises gets exactly one additional console line — the handler
message, which contains the exception text — appended after whatever was
already printed; no further chain call is made and the loop continues.
In src/main.py, a data-stage failure ends the run with the single
catch-all print of line 321 (containing the exception text), zero chain
calls, and the loop continues. -/
theorem C4_catch_all_handler (raw t es e : String) (pre : List Event)
    (rI : TechnicalIndicators → String) (rV : ValMetrics → String)
    (llm : String → String)
    (hq : pyLower (pyUpper (pyStrip raw)) ≠ "quit")
    (hx : pyLower (pyUpper (pyStrip raw)) ≠ "exit")
    (hne : pyUpper (pyStrip raw) ≠ "") :
    app_main_step raw (.error (pre, e)) =
      (pre ++ [.consoleOut ("Error analyzing stock: " ++ e)], true)
  ∧ e.toList <:+: ("Error analyzing stock: " ++ e).toList
  ∧ (outsOf (app_main_step raw (.error (pre, e))).1).count
        ("Error analyzing stock: " ++ e)
      = (outsOf pre).count ("Error analyzing stock: " ++ e) + 1
  ∧ callsOf (app_main_step raw (.error (pre, e))).1 = callsOf pre
  ∧ professional_analysis t (.error e) rI rV es llm =
      [.consoleOut (profHeader t), .consoleOut collectMsg,
       .consoleOut (profFailLine e)]
  ∧ e.toList <:+: (profFailLine e).toList
  ∧ callsOf (professional_analysis t (.error e) rI rV es llm) = []
  ∧ (main_loop_step raw (professional_analysis t (.error e) rI rV es llm)).2
      = true := by
  have hstep : app_main_step raw (.error (pre, e)) =
      (pre ++ [.consoleOut ("Error analyzing stock: " ++ e)], true) := by
    unfold app_main_step
    rw [if_neg (by simp [hq, hx]), if_neg hne]
  refine ⟨hstep, infix_end _ _, ?_, ?_, rfl, infix_end _ _, rfl, ?_⟩
  · rw [hstep]
    simp [outsOf, callsOf, List.count_append]
  · rw [hstep]
    simp [callsOf]
  · unfold main_loop_step
    rw [if_neg (by simp [hq, hx]), if_neg hne]

/-- Witness for `C4_catch_all_handler` at a concrete failing run. -/
theorem C4_catch_all_witness :
    app_main_step "AAPL" (.error ([.consoleOut "x"], "boom")) =
      ([.consoleOut "x"] ++ [.consoleOut ("Error analyzing stock: " ++ "boom")],
       true)
  ∧ "boom".toList <:+: ("Error analyzing stock: " ++ "boom").toList
  ∧ (outsOf (app_main_step "AAPL" (.error ([.consoleOut "x"], "boom"))).1).count
        ("Error analyzing stock: " ++ "boom")
      = (outsOf [.consoleOut "x"]).count ("Error analyzing stock: " ++ "boom") + 1
  ∧ callsOf (app_main_step "AAPL" (.error ([.consoleOut "x"], "boom"))).1
      = callsOf [.consoleOut "x"]
  ∧ professional_analysis "AAPL" (.error "boom") (fun _ => "") (fun _ => "")
        "0.00" (fun _ => "") =
      [.consoleOut (profHeader "AAPL"), .consoleOut collectMsg,
       .consoleOut (profFailLine "boom")]
  ∧ "boom".toList <:+: (profFailLine "boom").toList
  ∧ callsOf (professional_analysis "AAPL" (.error "boom") (fun _ => "")
        (fun _ => "") "0.00" (fun _ => "")) = []
  ∧ (main_loop_step "AAPL" (professional_analysis "AAPL" (.error "boom")
        (fun _ => "") (fun _ => "") "0.00" (fun _ => ""))).2 = true :=
  C4_catch_all_handler "AAPL" "AAPL" "0.00" "boom" [.consoleOut "x"]
    (fun _ => "") (fun _ => "") (fun _ => "")
    (by decide) (by decide) (by decide)

/-! ## Claim C5 -/

set_option maxRecDepth 10000 in
/-- Claim C5 (counterexample): src/app.py does *not* perform step (b) of
the claimed common workflow.  Its whole run is unchanged when the
provider's price history changes (it reads only the info dictionary and
never fetches a history), while src/main.py's rolling statistics do
change: two 50-row histories at different price levels give the app
identical traces but different `sma_50` values. -/
theorem C5_app_has_no_rolling_step :
    appRunOn "TST" ⟨emptyInfo, hist50a⟩ (fun _ => "R")
      = appRunOn "TST" ⟨emptyInfo, hist50b⟩ (fun _ => "R")
  ∧ Except.map (fun ti => ti.sma_50) (calculate_technical_indicators hist50a)
      ≠ Except.map (fun ti => ti.sma_50) (calculate_technical_indicators hist50b) := by
  constructor
  · rfl
  · have h1 : rollingMeanLast 50 (List.replicate 50 (1 : ℚ)) = some 1 := by decide
    have h2 : rollingMeanLast 50 (List.replicate 50 (2 : ℚ)) = some 2 := by decide
    have hne1 : (List.replicate 50 (1 : ℚ)) ≠ [] := by decide
    have hne2 : (List.replicate 50 (2 : ℚ)) ≠ [] := by decide
    simp only [hist50a, hist50b, calculate_technical_indicators, if_neg hne1,
      if_neg hne2, Except.map, h1, h2]
    norm_num

/-- Claim C5 (amended): the two scripts share steps (a), (c), (d) of the
workflow, but only src/main.py performs step (b): src/app.py's run is
invariant under any change of the provider's price history — it computes
no rolling statistic — while src/main.py's `sma_50` is the trailing
50-row rolling mean of the history it fetches. -/
theorem C5_only_main_computes_rolling_stats (t : String) (pd : ProviderData)
    (h : PriceData) (llm : String → String) :
    appRunOn t ⟨pd.info, h⟩ llm = appRunOn t pd llm
  ∧ (∀ xs vols : List ℚ, 50 ≤ xs.length →
      Except.map (fun ti => ti.sma_50) (calculate_technical_indicators ⟨xs, vols⟩)
        = .ok (some ((lastWindow 50 xs).sum / 50))) := by
  refine ⟨rfl, fun xs vols hlen => ?_⟩
  have hne : xs ≠ [] := by
    intro hnil; rw [hnil] at hlen; simp at hlen
  simp [calculate_technical_indicators, hne, Except.map, rollingMeanLast,
    Nat.not_lt.mpr hlen]

set_option maxRecDepth 8000 in
/-- Witness for `C5_only_main_computes_rolling_stats` at concrete data. -/
theorem C5_only_main_witness :
    appRunOn "TST" ⟨emptyInfo, histOne⟩ (fun _ => "R")
      = appRunOn "TST" ⟨emptyInfo, hist50a⟩ (fun _ => "R")
  ∧ Except.map (fun ti => ti.sma_50)
      (calculate_technical_indicators ⟨List.replicate 50 (1 : ℚ), []⟩)
      = .ok (some ((lastWindow 50 (List.replicate 50 (1 : ℚ))).sum / 50)) := by
  have h := C5_only_main_computes_rolling_stats "TST" ⟨emptyInfo, hist50a⟩
    histOne (fun _ => "R")
  exact ⟨h.1, h.2 (List.replicate 50 (1 : ℚ)) [] (by decide)⟩

end StockAgent
